import Mathlib

/-!
Shallow embedding of `main.py` of the git-scanner repository.

The program fetches repository, issue, pull-request and commit data from a
REST API, aggregates per-repository statistics, and renders/exports them.
Network I/O is embedded by passing the (already decoded) API responses as
explicit arguments: a fetch that can fail at transport level is an
`Except Unit` value, a JSON list endpoint is a function from the page
number to its page, and every timestamp string is carried together with
the result that `datetime.strptime` would produce on it (`none` models a
string the format rejects, whose parse raises `ValueError`).
Python exceptions that the source catches are modelled by `Option`
results (`none` = the `except` branch ran / `None` was returned).
-/

/-- A timestamp field as it arrives in a JSON payload: the raw string plus
the result of parsing it with the format string used by the source
(`none` models a malformed string, i.e. `strptime` raising `ValueError`;
`some t` is the parsed instant as seconds since the epoch). -/
structure TS where
  raw : String
  parsed : Option Int
deriving DecidableEq, Repr

/-- Parsing an optional timestamp field: a JSON `null` (`none`) makes
`strptime` raise `TypeError`, so the parse fails just as on a malformed
string. -/
def parseTS : Option TS → Option Int
  | none => none
  | some t => t.parsed

/-- Python truthiness of an optional string, as used for
`pr.get('merged_at')`: `None` and the empty string are falsy. -/
def truthyStr : Option String → Bool
  | none => false
  | some s => s != ""

/-- One element of the JSON array returned by the issues list endpoint
(the tracker conflates pull requests into this list; `has_pull_request`
records whether the item carries the `'pull_request'` key).
`author` models `issue['user']['login']` (`none` = the key path is
missing, so accessing it raises `KeyError`). -/
structure IssueItem where
  number : Nat
  title : String
  state : String
  created_at : TS
  updated_at : String
  closed_at : Option TS
  author : Option String
  labels : List String
  comments : Nat
  html_url : String
  body : Option String
  assignees : List String
  has_pull_request : Bool
deriving DecidableEq, Repr

/-- One element of the JSON array returned by the pulls list endpoint. -/
structure PRItem where
  number : Nat
  state : String
  created_at : TS
  closed_at : Option TS
  merged_at : Option String
deriving DecidableEq, Repr

/-- Evaluation of a Python list comprehension whose element expression can
raise: the first failing element aborts the whole comprehension. -/
def mapOrNone (f : α → Option β) : List α → Option (List β)
  | [] => some []
  | a :: l =>
    match f a with
    | none => none
    | some b =>
      match mapOrNone f l with
      | none => none
      | some bs => some (b :: bs)

/-- Python `max` over a list of strings (lexicographic, `none` for the
empty list); on ties the earlier element is kept, as CPython does. -/
def strMax : List String → Option String :=
  List.foldl
    (fun acc s =>
      match acc with
      | none => some s
      | some m => some (if m < s then s else m))
    none

/-- Arithmetic mean of a list of whole-day resolution times, as
`statistics.mean` computes it. -/
def listMean (l : List Int) : ℚ := (l.sum : ℚ) / (l.length : ℚ)

/-- The `mean(times) if times else 0` pattern of lines 124-125. -/
def meanOrZero (l : List Int) : ℚ := if l.isEmpty then 0 else listMean l

/-- Resolution time of a closed issue: `(closed - created).days`, i.e. the
floored number of whole days between the two parsed timestamps
(`timedelta.days` floors). Fails when either timestamp does not parse. -/
def issueResolutionDays (i : IssueItem) : Option Int :=
  match i.created_at.parsed with
  | none => none
  | some c =>
    match parseTS i.closed_at with
    | none => none
    | some cl => some ((cl - c).fdiv 86400)

/-- Resolution time of a merged or rejected pull request, same formula as
for issues (lines 118-122). -/
def prResolutionDays (p : PRItem) : Option Int :=
  match p.created_at.parsed with
  | none => none
  | some c =>
    match parseTS p.closed_at with
    | none => none
    | some cl => some ((cl - c).fdiv 86400)

/-- The classification predicates of lines 96-101. -/
def issue_is_open (i : IssueItem) : Bool := i.state == "open"

/-- Closed-issue test of line 97. -/
def issue_is_closed (i : IssueItem) : Bool := i.state == "closed"

/-- Open-PR test of line 99: `pr['state'] == 'open'`. -/
def pr_is_open (p : PRItem) : Bool := p.state == "open"

/-- Merged-PR test of line 100: `pr.get('merged_at')` is truthy. -/
def pr_is_merged (p : PRItem) : Bool := truthyStr p.merged_at

/-- Rejected-PR test of line 101:
`pr['state'] == 'closed' and not pr.get('merged_at')`. -/
def pr_is_rejected (p : PRItem) : Bool :=
  p.state == "closed" && !truthyStr p.merged_at

/-- The `'issues'` half of the dictionary built at lines 127-134. -/
structure IssueSummary where
  total : Nat
  open_count : Nat
  closed : Nat
  avg_resolution_days : ℚ
  last_issue_date : Option String
deriving DecidableEq, Repr

/-- The `'pulls'` half of the dictionary built at lines 135-142. -/
structure PullSummary where
  total : Nat
  open_count : Nat
  merged : Nat
  rejected : Nat
  avg_resolution_days : ℚ
  last_pr_date : Option String
deriving DecidableEq, Repr

/-- The value returned by `get_repo_issues_and_prs` on success. -/
structure IssuePrSummary where
  issues : IssueSummary
  pulls : PullSummary
deriving DecidableEq, Repr

/-- The all-zero substitute summary of lines 165-169 that `get_repo_stats`
uses when `get_repo_issues_and_prs` returns `None`. -/
def zeroIssuePrSummary : IssuePrSummary :=
  { issues :=
      { total := 0, open_count := 0, closed := 0, avg_resolution_days := 0,
        last_issue_date := none },
    pulls :=
      { total := 0, open_count := 0, merged := 0, rejected := 0,
        avg_resolution_days := 0, last_pr_date := none } }

/-- `GitHubStats.get_repo_issues_and_prs` (lines 62-146). The two
pagination sequences are passed in as their overall results
(`Except.error` = an HTTP error raised by `raise_for_status` during
either pagination). Every exception raised in the body is caught by the
`except` at line 144, modelled by the `none` result. The dead computation
of `days_since_first_issue` (lines 103-110) is kept because it parses the
`created_at` of every pure issue and can therefore fail. -/
def get_repo_issues_and_prs (issuesRes : Except Unit (List IssueItem))
    (pullsRes : Except Unit (List PRItem)) (now : Int) :
    Option IssuePrSummary :=
  match issuesRes, pullsRes with
  | .error _, _ => none
  | .ok _, .error _ => none
  | .ok all_issues, .ok all_prs =>
    let pure_issues := all_issues.filter (fun i => !i.has_pull_request)
    let open_issues := pure_issues.filter issue_is_open
    let closed_issues := pure_issues.filter issue_is_closed
    let open_prs := all_prs.filter pr_is_open
    let merged_prs := all_prs.filter pr_is_merged
    let closed_prs := all_prs.filter pr_is_rejected
    match mapOrNone (fun i => i.created_at.parsed) pure_issues with
    | none => none
    | some created_times =>
      let days_since_first_issue : Int :=
        match created_times.min? with
        | none => 1
        | some first => max ((now - first).fdiv 86400) 1
      match mapOrNone issueResolutionDays closed_issues with
      | none => none
      | some issue_resolution_times =>
        match mapOrNone prResolutionDays (merged_prs ++ closed_prs) with
        | none => none
        | some pr_resolution_times =>
          let _ := days_since_first_issue
          some
            { issues :=
                { total := pure_issues.length,
                  open_count := open_issues.length,
                  closed := closed_issues.length,
                  avg_resolution_days := meanOrZero issue_resolution_times,
                  last_issue_date :=
                    strMax (pure_issues.map (fun i => i.created_at.raw)) },
              pulls :=
                { total := all_prs.length,
                  open_count := open_prs.length,
                  merged := merged_prs.length,
                  rejected := closed_prs.length,
                  avg_resolution_days := meanOrZero pr_resolution_times,
                  last_pr_date :=
                    strMax (all_prs.map (fun p => p.created_at.raw)) } }

/-- The JSON object returned by `GET /repos/{owner}/{repo}` as far as
`get_repo_stats` reads it. Every field read through `.get(key, default)`
is an `Option` (`none` = key missing, or present as `null`, which `.get`
of a missing key and a stored `None` both surface as the default being
used or `None` flowing on; the difference is invisible to the reads the
source performs on these fields). -/
structure RepoJson where
  name : Option String
  description : Option String
  language : Option String
  created_at : Option TS
  stargazers_count : Option Nat
  forks_count : Option Nat
  watchers_count : Option Nat
  size : Option Nat
  default_branch : Option String
  license : Option (Option String)
  is_template : Option Bool
  visibility : Option String
deriving DecidableEq, Repr

/-- One element of the commit list. `date` models the key path
`commit["commit"]["author"]["date"]`: `none` = some key on the path is
missing (`KeyError`/`TypeError`, caught at line 176), `some ts` = the
timestamp string found there. -/
structure CommitItem where
  date : Option TS
deriving DecidableEq, Repr

/-- Line 183: `repo_data.get("created_at", "2000-01-01T00:00:00Z")`
followed by `strptime`. A missing key yields the default string, which
parses to the fixed instant 2000-01-01 (946684800 seconds); a present but
malformed string makes the (uncaught inside the record literal) parse
raise, so the whole `get_repo_stats` call fails. -/
def repoCreatedAt (rj : RepoJson) : Option Int :=
  match rj.created_at with
  | none => some 946684800
  | some ts => ts.parsed

/-- Lines 171-177: extract and parse the latest commit date.
Outer `none` = an uncaught `ValueError` from `strptime` (the `except` at
line 176 only catches `TypeError`/`KeyError`), which aborts
`get_repo_stats`; `some none` = no usable date, rendered as "Never". -/
def commitDateStep (commits : List CommitItem) : Option (Option Int) :=
  match commits.head? with
  | none => some none
  | some c =>
    match c.date with
    | none => some none
    | some ts =>
      match ts.parsed with
      | none => none
      | some t => some (some t)

/-- Modelled from the spec: the external `humanize.naturaltime`
collaborator, which renders an elapsed duration in seconds as a coarse
human-readable relative phrase such as "3 days ago". Only two properties
of it are relied on by the claims: it is a pure rendering of the delta,
and it never yields the sentinel string "Never". -/
def naturaltime (delta : Int) : String :=
  if delta < 60 then "now"
  else if delta < 3600 then toString (delta.fdiv 60) ++ " minutes ago"
  else if delta < 86400 then toString (delta.fdiv 3600) ++ " hours ago"
  else toString (delta.fdiv 86400) ++ " days ago"

/-- Half-to-even integer rounding, as CPython's `round` builtin performs
on the scaled value. -/
def roundHalfEven (q : ℚ) : ℤ :=
  let f := ⌊q⌋
  let r := q - f
  if r < 1 / 2 then f
  else if 1 / 2 < r then f + 1
  else if f % 2 = 0 then f else f + 1

/-- Python `round(x, 1)` (lines 193 and 198), modelled as exact decimal
rounding of the rational value to one fractional digit. -/
def round1 (q : ℚ) : ℚ := (roundHalfEven (q * 10) : ℚ) / 10

/-- The record `get_repo_stats` builds at lines 179-204, one row per
repository. -/
structure RepoStatsRecord where
  name : String
  description : String
  language : String
  created_at : Int
  stars : Nat
  forks : Nat
  watchers : Nat
  last_commit : String
  total_issues : Nat
  open_issues : Nat
  closed_issues : Nat
  issue_resolution_time_avg : ℚ
  total_prs : Nat
  open_prs : Nat
  merged_prs : Nat
  rejected_prs : Nat
  pr_resolution_time_avg : ℚ
  size_kb : Nat
  default_branch : String
  license : String
  is_template : Bool
  visibility : String
deriving DecidableEq, Repr

/-- Line 201: the license display string. -/
def licenseName (rj : RepoJson) : String :=
  match rj.license with
  | none => "Not specified"
  | some ln => ln.getD "Not specified"

/-- `GitHubStats.get_repo_stats` (lines 148-208). `repoRes` is the
metadata fetch (`Except.error` = HTTP error; `ok none` = an empty/falsy
JSON body, line 158), `commitsRes` the `per_page=1` commit-list fetch,
and `issuesRes`/`pullsRes` are handed to `get_repo_issues_and_prs`,
whose `None` result is replaced by the all-zero summary (line 165).
Any exception reaching the `except` of line 206 is the `none` result. -/
def get_repo_stats (repoRes : Except Unit (Option RepoJson))
    (commitsRes : Except Unit (List CommitItem))
    (issuesRes : Except Unit (List IssueItem))
    (pullsRes : Except Unit (List PRItem)) (now : Int) :
    Option RepoStatsRecord :=
  match repoRes with
  | .error _ => none
  | .ok repoOpt =>
    match repoOpt with
    | none => none
    | some repo_data =>
      match commitsRes with
      | .error _ => none
      | .ok commits =>
        let issue_pr_stats :=
          (get_repo_issues_and_prs issuesRes pullsRes now).getD
            zeroIssuePrSummary
        match commitDateStep commits with
        | none => none
        | some last_commit_date =>
          match repoCreatedAt repo_data with
          | none => none
          | some created =>
            some
              { name := repo_data.name.getD "Unknown",
                description := repo_data.description.getD "No description",
                language := repo_data.language.getD "Not specified",
                created_at := created,
                stars := repo_data.stargazers_count.getD 0,
                forks := repo_data.forks_count.getD 0,
                watchers := repo_data.watchers_count.getD 0,
                last_commit :=
                  match last_commit_date with
                  | none => "Never"
                  | some t => naturaltime (now - t),
                total_issues := issue_pr_stats.issues.total,
                open_issues := issue_pr_stats.issues.open_count,
                closed_issues := issue_pr_stats.issues.closed,
                issue_resolution_time_avg :=
                  round1 issue_pr_stats.issues.avg_resolution_days,
                total_prs := issue_pr_stats.pulls.total,
                open_prs := issue_pr_stats.pulls.open_count,
                merged_prs := issue_pr_stats.pulls.merged,
                rejected_prs := issue_pr_stats.pulls.rejected,
                pr_resolution_time_avg :=
                  round1 issue_pr_stats.pulls.avg_resolution_days,
                size_kb := repo_data.size.getD 0,
                default_branch := repo_data.default_branch.getD "main",
                license := licenseName repo_data,
                is_template := repo_data.is_template.getD false,
                visibility := repo_data.visibility.getD "unknown" }

/-- A raw repository descriptor from the repository-list endpoint, as far
as `main` reads it (`repo["owner"]["login"]` and `repo["name"]`). -/
structure RepoDescriptor where
  owner_login : String
  name : String
deriving DecidableEq, Repr

/-- The `while True` pagination loop shared by `get_all_repos` (lines
40-60) and the two loops of `get_repo_issues_and_prs` (lines 68-90): ask
the endpoint for page `page`, stop on an empty page, otherwise accumulate
and continue with `page + 1`. The endpoint is a function from the page
number to that page (`Except.error` = a non-success HTTP status, raised
by `raise_for_status`). `fuel` bounds the number of iterations the
embedding unfolds; `none` means the fuel ran out, i.e. within `fuel`
requests the loop had not yet terminated. On termination the returned
number is the page at which the empty page was seen, which equals the
total number of requests made (pages 1..k were fetched when called with
`page = 1`). -/
def paginate (api : Nat → Except Unit (List α)) :
    Nat → Nat → List α → Option (Except Unit (List α × Nat))
  | 0, _, _ => none
  | fuel + 1, page, acc =>
    match api page with
    | .error _ => some (.error ())
    | .ok items =>
      if items.isEmpty then some (.ok (acc, page))
      else paginate api fuel (page + 1) (acc ++ items)

/-- Outcome of `get_all_repos` as `main` observes it. -/
inductive ReposResult
  | usage_exit
  | transport
  | ok (repos : List RepoDescriptor)
deriving DecidableEq, Repr

/-- `GitHubStats.get_all_repos` (lines 35-60): an owner string containing
a slash aborts the process with a printed usage message and
`sys.exit(1)`; otherwise the repository-list endpoint is paginated. The
`include_private` flag only selects the `type` query parameter, so the
endpoint function receives it. A transport error propagates out of the
method (fatal in `main`). Python's `'/' in owner` is membership in the
character sequence. -/
def get_all_repos (owner : String) (include_private : Bool)
    (api : Bool → Nat → Except Unit (List RepoDescriptor)) (fuel : Nat) :
    Option ReposResult :=
  if owner.data.contains '/' then some .usage_exit
  else
    match paginate (api include_private) fuel 1 [] with
    | none => none
    | some (.error _) => some .transport
    | some (.ok (repos, _)) => some (.ok repos)

/-- Python `owner.split('/')` on the character sequence. -/
def splitOnSlash (l : List Char) : List (List Char) :=
  match l with
  | [] => [[]]
  | c :: rest =>
    let r := splitOnSlash rest
    if c = '/' then [] :: r
    else
      match r with
      | [] => [[c]]
      | h :: t => (c :: h) :: t

/-- The flat issue record built at lines 244-257. -/
structure ProcessedIssue where
  number : Nat
  title : String
  state : String
  created_at : String
  updated_at : String
  closed_at : Option String
  author : String
  labels : String
  comments : Nat
  url : String
  body : String
  assignees : String
deriving DecidableEq, Repr

/-- Lines 244-257: flatten one tracker item. Fails (raising `KeyError`,
caught at line 262) when `issue['user']['login']` is missing; the falsy
body (`None` or the empty string) becomes the empty string. -/
def process_issue (i : IssueItem) : Option ProcessedIssue :=
  match i.author with
  | none => none
  | some author =>
    some
      { number := i.number, title := i.title, state := i.state,
        created_at := i.created_at.raw, updated_at := i.updated_at,
        closed_at := i.closed_at.map (fun t => t.raw),
        author := author,
        labels := String.intercalate "," i.labels,
        comments := i.comments, url := i.html_url,
        body := match i.body with
          | none => ""
          | some b => b,
        assignees := String.intercalate "," i.assignees }

/-- The pagination loop of lines 220-239: same stopping rule as
`paginate`, but each non-empty page is filtered of pull-request items
before being accumulated (the stop test looks at the unfiltered page). -/
def paginate_issues (api : Nat → Except Unit (List IssueItem)) :
    Nat → Nat → List IssueItem → Option (Except Unit (List IssueItem))
  | 0, _, _ => none
  | fuel + 1, page, acc =>
    match api page with
    | .error _ => some (.error ())
    | .ok issues =>
      if issues.isEmpty then some (.ok acc)
      else
        paginate_issues api fuel (page + 1)
          (acc ++ issues.filter (fun i => !i.has_pull_request))

/-- Outcome of `get_repository_issues` as `main` observes it: `crash` = an
exception escaped the method (the tuple unpacking at line 213 is outside
the `try`), `failed` = the `except` of line 262 returned `None`, `ok` =
the processed issue list. -/
inductive IssuesResult
  | crash
  | failed
  | ok (issues : List ProcessedIssue)
deriving DecidableEq, Repr

/-- `GitHubStats.get_repository_issues` (lines 210-264): when the owner
argument contains a slash it is split at the slashes and unpacked into
`owner, repo` — exactly two parts, otherwise the unpacking raises an
uncaught `ValueError` (`crash`). The issues endpoint of the resolved
(owner, repo) pair is then paginated with per-page pull-request
filtering, and each surviving item flattened. -/
def get_repository_issues (owner repo : String)
    (api : String → String → Nat → Except Unit (List IssueItem))
    (fuel : Nat) : Option IssuesResult :=
  let parts :=
    if owner.data.contains '/' then
      (splitOnSlash owner.data).map String.mk
    else [owner, repo]
  match parts with
  | [o, r] =>
    match paginate_issues (api o r) fuel 1 [] with
    | none => none
    | some (.error _) => some .failed
    | some (.ok all_issues) =>
      match mapOrNone process_issue all_issues with
      | none => some .failed
      | some processed => some (.ok processed)
  | _ => some .crash

/-- The result-collection loop of `main` (lines 591-597): as each future
completes, append its record when it is not `None`. The pool width
(`max_workers`, 5 in the source) bounds how many aggregator calls are in
flight and therefore which completion orders can occur, but the
collection step itself is the same for every width, so the width is an
inert parameter here; completion orders are quantified separately as
permutations of the submitted batch. -/
def main_collect_stats (max_workers : Nat)
    (completed : List (Option RepoStatsRecord)) : List RepoStatsRecord :=
  completed.foldl
    (fun stats res =>
      match res with
      | some r => stats ++ [r]
      | none => stats)
    []

/-- The `.github` filter used by both `display_stats` (line 281) and
`export_stats` (line 353). -/
def github_filter (stats : List RepoStatsRecord) : List RepoStatsRecord :=
  stats.filter (fun r => r.name != ".github")

/-- Line 284: `sorted(stats, key=lambda x: x['stars'], reverse=True)` — a
stable sort, descending by star count. -/
def sort_by_stars (l : List RepoStatsRecord) : List RepoStatsRecord :=
  l.mergeSort (fun a b => b.stars ≤ a.stars)

/-- Python `"{:.1f}".format` of a rational value, modelled as exact
decimal rounding (half to even) to one fractional digit. -/
def fmt_one_decimal (q : ℚ) : String :=
  let t := roundHalfEven (q * 10)
  toString (t / 10) ++ "." ++ toString (t % 10)

/-- `format_number` (lines 266-272). -/
def format_number (num : Nat) : String :=
  if num ≥ 1000000 then fmt_one_decimal ((num : ℚ) / 1000000) ++ "M"
  else if num ≥ 1000 then fmt_one_decimal ((num : ℚ) / 1000) ++ "k"
  else toString num

/-- Right-alignment padding of an f-string field such as `{stars:>4}`. -/
def pad_left (s : String) (w : Nat) : String :=
  String.mk (List.replicate (w - s.length) ' ') ++ s

/-- One row of the console table (lines 294-301). -/
structure DisplayRow where
  name : String
  stars : String
  forks : String
  issues : String
  prs : String
  last_commit : String
deriving DecidableEq, Repr

/-- Lines 288-301: rendering one record into a table row;
`repo['name'][:40]` is character-sequence truncation. -/
def mkDisplayRow (r : RepoStatsRecord) : DisplayRow :=
  { name := String.mk (r.name.data.take 40),
    stars := pad_left (format_number r.stars) 4,
    forks := pad_left (format_number r.forks) 4,
    issues :=
      pad_left (toString r.total_issues ++ " | " ++ toString r.open_issues) 9,
    prs :=
      pad_left (toString r.total_prs ++ " | " ++ toString r.merged_prs) 9,
    last_commit := r.last_commit }

/-- The full table body of `display_stats`: filter out `.github`, sort by
stars descending, render each survivor. -/
def display_table_rows (stats : List RepoStatsRecord) : List DisplayRow :=
  (sort_by_stars (github_filter stats)).map mkDisplayRow

/-- The summary numbers of lines 322-334, all computed over the filtered
list: repository count, total stars, total forks, total issues, total
PRs. -/
def display_summary (stats : List RepoStatsRecord) :
    Nat × Nat × Nat × Nat × Nat :=
  let s := github_filter stats
  (s.length, (s.map (fun r => r.stars)).sum,
    (s.map (fun r => r.forks)).sum,
    (s.map (fun r => r.total_issues)).sum,
    (s.map (fun r => r.total_prs)).sum)

/-- The DataFrame rows `export_stats` writes (lines 352-362): the
`.github` filter applied to the collected records, original order kept
(column selection does not reorder rows). -/
def export_rows (stats : List RepoStatsRecord) : List RepoStatsRecord :=
  stats.filter (fun r => r.name != ".github")

/-- A sample collected record used by concrete instances. -/
def sampleRecord (nm : String) (st : Nat) : RepoStatsRecord :=
  { name := nm, description := "No description", language := "Not specified",
    created_at := 946684800, stars := st, forks := 0, watchers := 0,
    last_commit := "Never", total_issues := 0, open_issues := 0,
    closed_issues := 0, issue_resolution_time_avg := 0, total_prs := 0,
    open_prs := 0, merged_prs := 0, rejected_prs := 0,
    pr_resolution_time_avg := 0, size_kb := 0, default_branch := "main",
    license := "Not specified", is_template := false, visibility := "public" }

/-- A concrete endpoint serving pages of sizes 100, 100, 37, 0, with
globally numbered items so that arrival order is visible. -/
def pages237 : Nat → List Nat := fun p =>
  if p = 1 then List.range 100
  else if p = 2 then (List.range 100).map (fun n => 100 + n)
  else if p = 3 then (List.range 37).map (fun n => 200 + n)
  else []

/-- The error condition of the Issue/PR fetcher: a transport error in
either pagination, or a parse failure on any timestamp field the body
actually reads — the `created_at` of every pure issue (line 105), the
`closed_at` of every closed issue (line 115), and the `created_at` and
`closed_at` of every merged or rejected PR (lines 120-121). -/
def fetchHasError (issuesRes : Except Unit (List IssueItem))
    (pullsRes : Except Unit (List PRItem)) : Bool :=
  match issuesRes, pullsRes with
  | .error _, _ => true
  | .ok _, .error _ => true
  | .ok issues, .ok prs =>
    let pure_issues := issues.filter (fun i => !i.has_pull_request)
    (pure_issues.any (fun i => i.created_at.parsed.isNone)) ||
    ((pure_issues.filter issue_is_closed).any
      (fun i => (issueResolutionDays i).isNone)) ||
    ((prs.filter pr_is_merged ++ prs.filter pr_is_rejected).any
      (fun p => (prResolutionDays p).isNone))

/-- A pull request that is merged yet still reported with state "open" by
the endpoint: the real service never sends this, but nothing in the code rules it
out. -/
def prOpenMerged : PRItem :=
  { number := 1, state := "open",
    created_at := ⟨"2024-01-01T00:00:00Z", some 0⟩,
    closed_at := some ⟨"2024-01-02T00:00:00Z", some 86400⟩,
    merged_at := some "2024-01-02T00:00:00Z" }

/-- A tracker item carrying the `pull_request` linkage key. -/
def issueLinked : IssueItem :=
  { number := 7, title := "pr disguised as issue", state := "open",
    created_at := ⟨"2024-01-01T00:00:00Z", some 0⟩,
    updated_at := "2024-01-01T00:00:00Z", closed_at := none,
    author := some "alice", labels := [], comments := 0, html_url := "u",
    body := none, assignees := [], has_pull_request := true }

/-- An issue closed exactly `days` whole days after its creation. -/
def mkClosedIssue (n : Nat) (days : Int) : IssueItem :=
  { number := n, title := "issue", state := "closed",
    created_at := ⟨"2024-01-01T00:00:00Z", some 0⟩,
    updated_at := "2024-01-01T00:00:00Z",
    closed_at := some ⟨"closed-date", some (days * 86400)⟩,
    author := some "alice", labels := [], comments := 0, html_url := "u",
    body := none, assignees := [], has_pull_request := false }

/-- Issues closed 2, 4 and 6 days after creation. -/
def issues246 : List IssueItem :=
  [mkClosedIssue 1 2, mkClosedIssue 2 4, mkClosedIssue 3 6]

/-- Repository metadata for the concrete aggregation scenarios. -/
def rj7 : RepoJson :=
  { name := some "repo7", description := none, language := none,
    created_at := none, stargazers_count := some 1, forks_count := none,
    watchers_count := none, size := none, default_branch := none,
    license := none, is_template := none, visibility := none }

/-- A commit whose date parses. -/
def commit7 : CommitItem := { date := some ⟨"2024-01-10T00:00:00Z", some 0⟩ }

/-- The `now` instant of the concrete aggregation scenario, 10 days after
the epoch of its timestamps. -/
def now7 : Int := 864000

/-- The summary the fetcher computes for `issues246` and no PRs. -/
def s246 : IssuePrSummary :=
  { issues :=
      { total := 3, open_count := 0, closed := 3,
        avg_resolution_days := meanOrZero [2, 4, 6],
        last_issue_date :=
          strMax ["2024-01-01T00:00:00Z", "2024-01-01T00:00:00Z",
            "2024-01-01T00:00:00Z"] },
    pulls :=
      { total := 0, open_count := 0, merged := 0, rejected := 0,
        avg_resolution_days := meanOrZero [], last_pr_date := strMax [] } }

/-- Bare repository metadata (every optional field defaulted). -/
def rj9 : RepoJson :=
  { name := some "repo9", description := none, language := none,
    created_at := none, stargazers_count := none, forks_count := none,
    watchers_count := none, size := none, default_branch := none,
    license := none, is_template := none, visibility := none }

/-- A commit whose date parses to the epoch. -/
def commit9 : CommitItem := { date := some ⟨"2024-01-01T00:00:00Z", some 0⟩ }

/-- A plain tracker issue returned by the issues endpoint. -/
def issueA : IssueItem :=
  { number := 1, title := "t", state := "open",
    created_at := ⟨"2024-01-01T00:00:00Z", some 0⟩,
    updated_at := "2024-01-01T00:00:00Z", closed_at := none,
    author := some "alice", labels := [], comments := 0, html_url := "u",
    body := none, assignees := [], has_pull_request := false }

/-- An issues endpoint that serves `issueA` on page 1 of the repository
("a", "b") and nothing anywhere else: it witnesses which (owner, repo)
pair `get_repository_issues` actually queried. -/
def apiAB : String → String → Nat → Except Unit (List IssueItem) :=
  fun o r p => if o = "a" ∧ r = "b" ∧ p = 1 then .ok [issueA] else .ok []

/-- The flattened form of `issueA`. -/
def processedA : ProcessedIssue :=
  { number := 1, title := "t", state := "open",
    created_at := "2024-01-01T00:00:00Z",
    updated_at := "2024-01-01T00:00:00Z", closed_at := none,
    author := "alice", labels := "", comments := 0, url := "u", body := "",
    assignees := "" }

/-- A well-formed merged PR (closed state, parseable timestamps). -/
def prMergedOk : PRItem :=
  { number := 2, state := "closed",
    created_at := ⟨"2024-01-01T00:00:00Z", some 0⟩,
    closed_at := some ⟨"2024-01-02T00:00:00Z", some 86400⟩,
    merged_at := some "2024-01-02T00:00:00Z" }

/-- The summary the fetcher computes for no issues and `[prMergedOk]`. -/
def sMerged : IssuePrSummary :=
  { issues :=
      { total := 0, open_count := 0, closed := 0,
        avg_resolution_days := meanOrZero [], last_issue_date := strMax [] },
    pulls :=
      { total := 1, open_count := 0, merged := 1, rejected := 0,
        avg_resolution_days := meanOrZero [1],
        last_pr_date := strMax ["2024-01-01T00:00:00Z"] } }

/-- The collection loop is the `filterMap` of the completed batch. -/
theorem main_collect_stats_eq_filterMap (max_workers : Nat)
    (completed : List (Option RepoStatsRecord)) :
    main_collect_stats max_workers completed = completed.filterMap id := by
  have key : ∀ (l : List (Option RepoStatsRecord)) (acc : List RepoStatsRecord),
      l.foldl
        (fun stats res =>
          match res with
          | some r => stats ++ [r]
          | none => stats)
        acc = acc ++ l.filterMap id := by
    intro l
    induction l with
    | nil => intro acc; simp
    | cons h t ih =>
      intro acc
      cases h with
      | none => simpa [List.filterMap_cons] using ih acc
      | some r => simp [List.filterMap_cons, ih (acc ++ [r])]
  simpa using key completed []

/-- Dropping the failures loses exactly the `none` entries. -/
theorem length_filterMap_id_add_count {α : Type} [DecidableEq α]
    (l : List (Option α)) :
    (l.filterMap id).length + l.count none = l.length := by
  induction l with
  | nil => simp
  | cons h t ih =>
    cases h <;> simp [List.count_cons, ih] <;> omega

/-- C1: for every batch of N submitted aggregator results of which exactly
K are failures (`None`), and for every completion order (any permutation
of the batch) and every worker-pool width, the collected list is a
permutation of the successful records — one per succeeding repository —
and has exactly N - K entries. -/
theorem dispatcher_collects_exactly_successes
    (results completed : List (Option RepoStatsRecord)) (max_workers : Nat)
    (hperm : completed.Perm results) :
    (main_collect_stats max_workers completed).Perm (results.filterMap id) ∧
    (main_collect_stats max_workers completed).length
      = results.length - results.count none := by
  rw [main_collect_stats_eq_filterMap]
  refine ⟨hperm.filterMap id, ?_⟩
  have h1 := length_filterMap_id_add_count results
  have h2 := (hperm.filterMap id).length_eq
  omega

/-- Witness for C1: a batch of 3 with 1 failure, collected out of
submission order, yields 2 records. -/
theorem dispatcher_collects_exactly_successes_witness :
    (main_collect_stats 5
        [some (sampleRecord "b" 1), none, some (sampleRecord "a" 2)]).Perm
      (([some (sampleRecord "a" 2), some (sampleRecord "b" 1), none] :
          List (Option RepoStatsRecord)).filterMap id) ∧
    (main_collect_stats 5
        [some (sampleRecord "b" 1), none, some (sampleRecord "a" 2)]).length
      = ([some (sampleRecord "a" 2), some (sampleRecord "b" 1), none] :
          List (Option RepoStatsRecord)).length
        - ([some (sampleRecord "a" 2), some (sampleRecord "b" 1), none] :
            List (Option RepoStatsRecord)).count none :=
  dispatcher_collects_exactly_successes
    [some (sampleRecord "a" 2), some (sampleRecord "b" 1), none]
    [some (sampleRecord "b" 1), none, some (sampleRecord "a" 2)] 5
    (by decide)

/-- The pagination loop, started at page `p` with accumulator `acc`,
terminates at the first empty page `k` and returns the concatenation of
the non-empty pages in request order. -/
theorem paginate_ok_loop {α : Type} (pages : Nat → List α) (k : Nat)
    (hk : pages k = []) :
    ∀ (fuel p : Nat) (acc : List α), p ≤ k → k + 1 - p ≤ fuel →
    (∀ j, p ≤ j → j < k → pages j ≠ []) →
    paginate (fun n => Except.ok (pages n)) fuel p acc
      = some (Except.ok (acc ++ ((List.range' p (k - p)).map pages).flatten, k)) := by
  intro fuel
  induction fuel with
  | zero => intro p acc hpk hfuel hne; omega
  | succ n ih =>
    intro p acc hpk hfuel hne
    by_cases hpk2 : p = k
    · subst hpk2
      simp [paginate, hk]
    · have hplt : p < k := lt_of_le_of_ne hpk hpk2
      have hne2 : pages p ≠ [] := hne p le_rfl hplt
      have hie : (pages p).isEmpty = false := by
        simpa [List.isEmpty_iff] using hne2
      have hrec := ih (p + 1) (acc ++ pages p) hplt (by omega)
        (fun j hj1 hj2 => hne j (by omega) hj2)
      simp only [paginate, hie, Bool.false_eq_true, if_false]
      rw [hrec]
      have hkp : k - p = (k - (p + 1)) + 1 := by omega
      rw [hkp, List.range'_succ]
      simp [List.flatten]

/-- C2: for every page-valued endpoint, if page `k` is the first empty
page (pages 1..k-1 all non-empty), the Paginator returns the
concatenation of pages 1..k-1 in request order and makes exactly `k`
requests (pages 1, 2, ..., k), stopping only at the empty page. -/
theorem paginator_concatenates_until_empty_page {α : Type}
    (pages : Nat → List α) (k fuel : Nat) (hk1 : 1 ≤ k) (hkf : k ≤ fuel)
    (hne : ∀ j, 1 ≤ j → j < k → pages j ≠ []) (hempty : pages k = []) :
    paginate (fun n => Except.ok (pages n)) fuel 1 []
      = some (Except.ok (((List.range' 1 (k - 1)).map pages).flatten, k)) := by
  simpa using paginate_ok_loop pages k hempty fuel 1 [] hk1 (by omega) hne

/-- Witness for C2: pages of sizes [100,100,37,0] yield exactly the 237
items 0..236 in page-arrival order, with exactly 4 requests made. -/
theorem paginator_concatenates_until_empty_page_witness :
    paginate (fun n => Except.ok (pages237 n)) 10 1 []
      = some (Except.ok (List.range 237, 4)) := by
  have h := paginator_concatenates_until_empty_page pages237 4 10
    (by norm_num) (by norm_num)
    (by intro j h1 h2; interval_cases j <;> decide) (by rfl)
  have heq : ((List.range' 1 (4 - 1)).map pages237).flatten = List.range 237 := by
    set_option maxRecDepth 4000 in decide
  rw [h, heq]

/-- C8 (amended): in the repository-enumeration path, an owner containing
a "/" separator makes `get_all_repos` abort the run with the usage
message and `sys.exit(1)` before any request is issued. -/
theorem get_all_repos_slash_owner_usage_exit (owner : String)
    (include_private : Bool)
    (api : Bool → Nat → Except Unit (List RepoDescriptor)) (fuel : Nat)
    (h : owner.data.contains '/' = true) :
    get_all_repos owner include_private api fuel
      = some ReposResult.usage_exit := by
  unfold get_all_repos
  rw [if_pos h]

/-- Witness for C8: the owner string "a/b" is a fatal usage exit for the
enumerator. -/
theorem get_all_repos_slash_owner_usage_exit_witness :
    get_all_repos "a/b" true (fun _ _ => Except.ok []) 3
      = some ReposResult.usage_exit ∧
    ("a/b" : String).data.contains '/' = true :=
  ⟨get_all_repos_slash_owner_usage_exit "a/b" true (fun _ _ => Except.ok []) 3
      (by decide),
    by decide⟩

/-- A failing element aborts the whole comprehension. -/
theorem mapOrNone_eq_none {α β : Type} (f : α → Option β) :
    ∀ (l : List α) (a : α), a ∈ l → f a = none → mapOrNone f l = none := by
  intro l
  induction l with
  | nil => intro a ha _; cases ha
  | cons b t ih =>
    intro a ha hf
    rcases List.mem_cons.mp ha with rfl | ht
    · simp [mapOrNone, hf]
    · unfold mapOrNone
      cases hb : f b
      · rfl
      · rw [ih a ht hf]

/-- Success inversion for the Issue/PR fetcher: a successful call
determines every field of the summary from the fetched lists. -/
theorem get_repo_issues_and_prs_some_elim {issues : List IssueItem}
    {prs : List PRItem} {now : Int} {s : IssuePrSummary}
    (h : get_repo_issues_and_prs (Except.ok issues) (Except.ok prs) now
      = some s) :
    ∃ created_times issue_times pr_times,
      mapOrNone (fun i => i.created_at.parsed)
          (issues.filter (fun i => !i.has_pull_request)) = some created_times ∧
      mapOrNone issueResolutionDays
          ((issues.filter (fun i => !i.has_pull_request)).filter
            issue_is_closed) = some issue_times ∧
      mapOrNone prResolutionDays
          (prs.filter pr_is_merged ++ prs.filter pr_is_rejected)
        = some pr_times ∧
      s = { issues :=
              { total := (issues.filter (fun i => !i.has_pull_request)).length,
                open_count :=
                  ((issues.filter (fun i => !i.has_pull_request)).filter
                    issue_is_open).length,
                closed :=
                  ((issues.filter (fun i => !i.has_pull_request)).filter
                    issue_is_closed).length,
                avg_resolution_days := meanOrZero issue_times,
                last_issue_date :=
                  strMax ((issues.filter (fun i => !i.has_pull_request)).map
                    (fun i => i.created_at.raw)) },
            pulls :=
              { total := prs.length,
                open_count := (prs.filter pr_is_open).length,
                merged := (prs.filter pr_is_merged).length,
                rejected := (prs.filter pr_is_rejected).length,
                avg_resolution_days := meanOrZero pr_times,
                last_pr_date :=
                  strMax (prs.map (fun p => p.created_at.raw)) } } := by
  simp only [get_repo_issues_and_prs] at h
  rcases hct : mapOrNone (fun i => i.created_at.parsed)
      (issues.filter (fun i => !i.has_pull_request)) with _ | ct
  · simp only [hct] at h
    exact Option.noConfusion h
  · simp only [hct] at h
    rcases hit : mapOrNone issueResolutionDays
        ((issues.filter (fun i => !i.has_pull_request)).filter
          issue_is_closed) with _ | it
    · simp only [hit] at h
      exact Option.noConfusion h
    · simp only [hit] at h
      rcases hpt : mapOrNone prResolutionDays
          (prs.filter pr_is_merged ++ prs.filter pr_is_rejected) with _ | pt
      · simp only [hpt] at h
        exact Option.noConfusion h
      · simp only [hpt, Option.some.injEq] at h
        exact ⟨ct, it, pt, hct, hit, rfl, h.symm⟩

/-- If exactly one of three Boolean predicates holds for every element,
the three filtered sublists' lengths sum to the list length. -/
theorem three_filter_length {α : Type} (p q r : α → Bool) :
    ∀ l : List α,
    (∀ a ∈ l,
      (p a = true ∧ q a = false ∧ r a = false) ∨
      (p a = false ∧ q a = true ∧ r a = false) ∨
      (p a = false ∧ q a = false ∧ r a = true)) →
    (l.filter p).length + (l.filter q).length + (l.filter r).length
      = l.length := by
  intro l
  induction l with
  | nil => intro _; simp
  | cons a t ih =>
    intro h
    have ha := h a (by simp)
    have ht := ih (fun x hx => h x (by simp [hx]))
    rcases ha with ⟨h1, h2, h3⟩ | ⟨h1, h2, h3⟩ | ⟨h1, h2, h3⟩ <;>
      simp [List.filter_cons, h1, h2, h3] <;> omega

/-- C3 counterexample: a PR reported with state "open" and a merged
timestamp is classified both open (line 99 tests only the state) and
merged (line 100 tests only the timestamp), so the claimed partition
fails on the code: the class counts are open 1, merged 1, rejected 0
against a total of 1, and the "open otherwise" rule is violated because
the merged PR is also in the open class. -/
theorem pr_classification_partition_counterexample :
    (get_repo_issues_and_prs (Except.ok []) (Except.ok [prOpenMerged]) 0).map
        (fun s =>
          (s.pulls.total, s.pulls.open_count, s.pulls.merged,
            s.pulls.rejected))
      = some (1, 1, 1, 0) ∧
    pr_is_open prOpenMerged = true ∧ pr_is_merged prOpenMerged = true :=
  ⟨by decide, by decide, by decide⟩

/-- C3 (amended): for every fetched PR list in which each PR's state is
"open" or "closed" and every PR carrying a merged timestamp has state
"closed" — both guaranteed by the API — the classification is: merged iff
the merged timestamp is present, rejected iff closed and not merged, open
iff neither; the three classes partition the PR set (every PR in exactly
one class) and the three counts sum to the PR total. -/
theorem pr_classification_partition (issues : List IssueItem)
    (prs : List PRItem) (now : Int) (s : IssuePrSummary)
    (hwf : ∀ p ∈ prs,
      (p.state = "open" ∨ p.state = "closed") ∧
      (pr_is_merged p = true → p.state = "closed"))
    (h : get_repo_issues_and_prs (Except.ok issues) (Except.ok prs) now
      = some s) :
    s.pulls.open_count + s.pulls.merged + s.pulls.rejected
      = s.pulls.total ∧
    ∀ p ∈ prs,
      (pr_is_merged p = true ∧ pr_is_open p = false ∧
        pr_is_rejected p = false) ∨
      (pr_is_merged p = false ∧ pr_is_open p = true ∧
        pr_is_rejected p = false) ∨
      (pr_is_merged p = false ∧ pr_is_open p = false ∧
        pr_is_rejected p = true) := by
  have hone : ∀ p ∈ prs,
      (pr_is_merged p = true ∧ pr_is_open p = false ∧
        pr_is_rejected p = false) ∨
      (pr_is_merged p = false ∧ pr_is_open p = true ∧
        pr_is_rejected p = false) ∨
      (pr_is_merged p = false ∧ pr_is_open p = false ∧
        pr_is_rejected p = true) := by
    intro p hp
    obtain ⟨hst, hmc⟩ := hwf p hp
    by_cases hm : pr_is_merged p = true
    · have hcl := hmc hm
      refine Or.inl ⟨hm, ?_, ?_⟩
      · simp [pr_is_open, hcl]
      · simp only [pr_is_merged] at hm
        simp [pr_is_rejected, hm]
    · have hm' : pr_is_merged p = false := by
        revert hm
        cases pr_is_merged p <;> simp
      rcases hst with hso | hsc
      · refine Or.inr (Or.inl ⟨hm', ?_, ?_⟩)
        · simp [pr_is_open, hso]
        · simp only [pr_is_merged] at hm'
          simp [pr_is_rejected, hso, hm']
      · refine Or.inr (Or.inr ⟨hm', ?_, ?_⟩)
        · simp [pr_is_open, hsc]
        · simp only [pr_is_merged] at hm'
          simp [pr_is_rejected, hsc, hm']
  obtain ⟨ct, it, pt, hct, hit, hpt, hs⟩ := get_repo_issues_and_prs_some_elim h
  subst hs
  refine ⟨?_, hone⟩
  have := three_filter_length pr_is_open pr_is_merged pr_is_rejected prs
    (by
      intro a ha
      rcases hone a ha with ⟨h1, h2, h3⟩ | ⟨h1, h2, h3⟩ | ⟨h1, h2, h3⟩
      · exact Or.inr (Or.inl ⟨h2, h1, h3⟩)
      · exact Or.inl ⟨h2, h1, h3⟩
      · exact Or.inr (Or.inr ⟨h2, h1, h3⟩))
  simp only []
  omega

/-- Witness for C3: a single well-formed merged PR is counted once, in
the merged class only. -/
theorem pr_classification_partition_witness :
    (sMerged.pulls.open_count + sMerged.pulls.merged + sMerged.pulls.rejected
      = sMerged.pulls.total) ∧
    ((pr_is_merged prMergedOk = true ∧ pr_is_open prMergedOk = false ∧
        pr_is_rejected prMergedOk = false) ∨
      (pr_is_merged prMergedOk = false ∧ pr_is_open prMergedOk = true ∧
        pr_is_rejected prMergedOk = false) ∨
      (pr_is_merged prMergedOk = false ∧ pr_is_open prMergedOk = false ∧
        pr_is_rejected prMergedOk = true)) := by
  have h := pr_classification_partition [] [prMergedOk] 0 sMerged
    (by
      intro p hp
      rcases List.mem_singleton.mp hp with rfl
      exact ⟨Or.inr rfl, fun _ => rfl⟩)
    (by rfl)
  exact ⟨h.1, h.2 prMergedOk (by simp)⟩

/-- C4 counterexample: an issues-endpoint entry carrying the pull-request
linkage is dropped from the issue set (issue total 0), but it is not put
into the PullRequest set used for the PR counts: that set is the
independently fetched pulls-endpoint result, here empty, so the PR total
is 0 and no PR with the entry's number exists — refuting "every such entry
is present in the PullRequest set used for PR counts". -/
theorem linked_item_in_pr_set_counterexample :
    (get_repo_issues_and_prs (Except.ok [issueLinked]) (Except.ok []) 0).map
        (fun s => (s.issues.total, s.issues.open_count, s.issues.closed,
          s.pulls.total)) = some (0, 0, 0, 0) ∧
    issueLinked.has_pull_request = true ∧
    ([] : List PRItem).all (fun p => p.number != issueLinked.number) = true :=
  ⟨by decide, by decide, by decide⟩

/-- C4 (amended): every entry carrying a pull-request linkage is excluded
from the derived Issue set and contributes to no issue count; the
PullRequest set used for the PR counts is exactly the list returned by
the separate pulls-endpoint fetch (its total is that list's length), so
such an entry is counted among the PRs only insofar as the pulls endpoint
also returns it. -/
theorem linked_items_excluded_from_issue_set (issues : List IssueItem)
    (prs : List PRItem) (now : Int) (s : IssuePrSummary)
    (h : get_repo_issues_and_prs (Except.ok issues) (Except.ok prs) now
      = some s) :
    s.issues.total = (issues.filter (fun i => !i.has_pull_request)).length ∧
    s.issues.open_count
      = ((issues.filter (fun i => !i.has_pull_request)).filter
          issue_is_open).length ∧
    s.issues.closed
      = ((issues.filter (fun i => !i.has_pull_request)).filter
          issue_is_closed).length ∧
    (∀ i ∈ issues, i.has_pull_request = true →
      i ∉ issues.filter (fun i => !i.has_pull_request)) ∧
    s.pulls.total = prs.length := by
  obtain ⟨ct, it, pt, hct, hit, hpt, hs⟩ := get_repo_issues_and_prs_some_elim h
  subst hs
  refine ⟨rfl, rfl, rfl, ?_, rfl⟩
  intro i _ hlink hmem
  have := (List.mem_filter.mp hmem).2
  simp [hlink] at this

/-- Witness for C4: the linked entry is excluded while a real issue is
kept, and the PR total is the pulls-endpoint list length. -/
theorem linked_items_excluded_from_issue_set_witness :
    (get_repo_issues_and_prs (Except.ok [issueLinked, issueA])
        (Except.ok [prMergedOk]) 0).map
      (fun s => (s.issues.total, s.pulls.total)) = some (1, 1) := by
  rcases hx : get_repo_issues_and_prs (Except.ok [issueLinked, issueA])
      (Except.ok [prMergedOk]) 0 with _ | s
  · exact absurd hx (by decide)
  · have h := linked_items_excluded_from_issue_set [issueLinked, issueA]
      [prMergedOk] 0 s hx
    simp only [Option.map_some']
    rw [h.1, h.2.2.2.2]
    decide

/-- Any error the fetcher body can raise makes it return `None`. -/
theorem fetcher_none_of_hasError (issuesRes : Except Unit (List IssueItem))
    (pullsRes : Except Unit (List PRItem)) (now : Int)
    (hE : fetchHasError issuesRes pullsRes = true) :
    get_repo_issues_and_prs issuesRes pullsRes now = none := by
  match issuesRes, pullsRes with
  | .error e, _ => rfl
  | .ok issues, .error e => rfl
  | .ok issues, .ok prs =>
    simp only [fetchHasError, Bool.or_eq_true, List.any_eq_true,
      Option.isNone_iff_eq_none] at hE
    unfold get_repo_issues_and_prs
    rcases hct : mapOrNone (fun i => i.created_at.parsed)
        (issues.filter (fun i => !i.has_pull_request)) with _ | ct
    · simp only [hct]
    · simp only [hct]
      rcases hit : mapOrNone issueResolutionDays
          ((issues.filter (fun i => !i.has_pull_request)).filter
            issue_is_closed) with _ | it
      · simp only [hit]
      · simp only [hit]
        rcases hpt : mapOrNone prResolutionDays
            (prs.filter pr_is_merged ++ prs.filter pr_is_rejected)
            with _ | pt
        · simp only [hpt]
        · exfalso
          rcases hE with (⟨i, hi1, hi2⟩ | ⟨i, hi1, hi2⟩) | ⟨p, hp1, hp2⟩
          · rw [mapOrNone_eq_none _ _ i hi1 hi2] at hct
            exact Option.noConfusion hct
          · rw [mapOrNone_eq_none _ _ i hi1 hi2] at hit
            exact Option.noConfusion hit
          · rw [mapOrNone_eq_none _ _ p hp1 hp2] at hpt
            exact Option.noConfusion hpt

/-- Rounding the zero mean gives exactly zero. -/
theorem round1_zero : round1 0 = 0 := by
  norm_num [round1, roundHalfEven]

/-- C5: for every (owner, repo), any error while fetching or parsing the
repository's issues or pull requests makes the Issue/PR fetcher return
`None`; the caller substitutes the all-zero summary (all counts 0, both
mean resolution times 0, both last-activity timestamps absent), and the
repository's record is still produced — with every issue/PR figure zero —
so the batch continues for the other repositories. -/
theorem fetch_error_gives_zero_summary_record
    (issuesRes : Except Unit (List IssueItem))
    (pullsRes : Except Unit (List PRItem)) (rj : RepoJson)
    (commits : List CommitItem) (now created : Int) (d : Option Int)
    (hE : fetchHasError issuesRes pullsRes = true)
    (hcreated : repoCreatedAt rj = some created)
    (hcommit : commitDateStep commits = some d) :
    get_repo_issues_and_prs issuesRes pullsRes now = none ∧
    (get_repo_issues_and_prs issuesRes pullsRes now).getD zeroIssuePrSummary
      = zeroIssuePrSummary ∧
    (get_repo_stats (Except.ok (some rj)) (Except.ok commits) issuesRes
        pullsRes now).map
      (fun r => (r.total_issues, r.open_issues, r.closed_issues,
        r.issue_resolution_time_avg, r.total_prs, r.open_prs, r.merged_prs,
        r.rejected_prs, r.pr_resolution_time_avg))
      = some (0, 0, 0, 0, 0, 0, 0, 0, 0) := by
  have hnone := fetcher_none_of_hasError issuesRes pullsRes now hE
  refine ⟨hnone, by rw [hnone]; rfl, ?_⟩
  simp only [get_repo_stats, hnone, Option.getD_none, hcommit, hcreated]
  simp [zeroIssuePrSummary, round1_zero]

/-- Witness for C5: a transport error on the issues fetch still yields a
record, with the all-zero summary substituted. -/
theorem fetch_error_gives_zero_summary_record_witness :
    get_repo_issues_and_prs (Except.error ()) (Except.ok []) 0 = none ∧
    (get_repo_issues_and_prs (Except.error ()) (Except.ok []) 0).getD
        zeroIssuePrSummary = zeroIssuePrSummary ∧
    (get_repo_stats (Except.ok (some rj9)) (Except.ok []) (Except.error ())
        (Except.ok []) 0).map
      (fun r => (r.total_issues, r.open_issues, r.closed_issues,
        r.issue_resolution_time_avg, r.total_prs, r.open_prs, r.merged_prs,
        r.rejected_prs, r.pr_resolution_time_avg))
      = some (0, 0, 0, 0, 0, 0, 0, 0, 0) :=
  fetch_error_gives_zero_summary_record (Except.error ()) (Except.ok []) rj9
    [] 0 946684800 none rfl rfl rfl

/-- C6: for every successful fetch, a repository with no closed issues
gets mean issue resolution time exactly 0, and one with no merged or
rejected PRs gets mean PR resolution time exactly 0: the empty-set mean
takes the guarded `else 0` branch (lines 124-125), so the division of the
mean is never reached on an empty set — never undefined, an error or NaN. -/
theorem empty_resolution_sets_give_zero_mean (issues : List IssueItem)
    (prs : List PRItem) (now : Int) (s : IssuePrSummary)
    (h : get_repo_issues_and_prs (Except.ok issues) (Except.ok prs) now
      = some s) :
    ((issues.filter (fun i => !i.has_pull_request)).filter issue_is_closed
        = [] → s.issues.avg_resolution_days = 0) ∧
    (prs.filter pr_is_merged ++ prs.filter pr_is_rejected = [] →
      s.pulls.avg_resolution_days = 0) := by
  obtain ⟨ct, it, pt, hct, hit, hpt, hs⟩ := get_repo_issues_and_prs_some_elim h
  subst hs
  constructor
  · intro hcl
    rw [hcl] at hit
    simp only [mapOrNone, Option.some.injEq] at hit
    simp [← hit, meanOrZero]
  · intro hcl
    rw [hcl] at hpt
    simp only [mapOrNone, Option.some.injEq] at hpt
    simp [← hpt, meanOrZero]

/-- Witness for C6: with no issues and no PRs at all, both means are 0. -/
theorem empty_resolution_sets_give_zero_mean_witness :
    zeroIssuePrSummary.issues.avg_resolution_days = 0 ∧
    zeroIssuePrSummary.pulls.avg_resolution_days = 0 := by
  have h := empty_resolution_sets_give_zero_mean [] [] 0 zeroIssuePrSummary
    (by decide)
  exact ⟨h.1 (by decide), h.2 (by decide)⟩

/-- C7: the resolution time of a closed issue whose timestamps parse to
`c ≤ cl` is the whole-day truncation of the difference (floor and
truncation agree on the nonnegative difference), and the final record
rounds the arithmetic mean of these whole-day values to one decimal:
concretely, issues closed exactly 2, 4 and 6 days after creation give
`issue_resolution_time_avg` exactly 4. -/
theorem resolution_days_truncation_and_mean (i : IssueItem) (c cl : Int)
    (hc : i.created_at.parsed = some c) (hcl : parseTS i.closed_at = some cl)
    (hle : c ≤ cl) :
    issueResolutionDays i = some ((cl - c) / 86400) ∧
    (get_repo_stats (Except.ok (some rj7)) (Except.ok [commit7])
        (Except.ok issues246) (Except.ok []) now7).map
      (fun r => r.issue_resolution_time_avg) = some 4 := by
  constructor
  · unfold issueResolutionDays
    rw [hc, hcl]
    dsimp only
    rw [Int.fdiv_eq_ediv _ (by norm_num : (0 : ℤ) ≤ 86400)]
  · have h1 : get_repo_issues_and_prs (Except.ok issues246) (Except.ok [])
        now7 = some s246 := by rfl
    have h2 : meanOrZero [2, 4, 6] = 4 := by
      norm_num [meanOrZero, listMean]
    have h3 : round1 (4 : ℚ) = 4 := by
      norm_num [round1, roundHalfEven]
    simp only [get_repo_stats, h1, Option.getD_some, commitDateStep, commit7,
      repoCreatedAt, rj7, Option.map_some', s246, h2, h3]
    rfl

/-- Witness for C7: the issue closed 2 days after creation resolves to 2
whole days, alongside the concrete 4.0 average. -/
theorem resolution_days_truncation_and_mean_witness :
    issueResolutionDays (mkClosedIssue 1 2)
      = some ((2 * 86400 - 0) / 86400) ∧
    (get_repo_stats (Except.ok (some rj7)) (Except.ok [commit7])
        (Except.ok issues246) (Except.ok []) now7).map
      (fun r => r.issue_resolution_time_avg) = some 4 :=
  resolution_days_truncation_and_mean (mkClosedIssue 1 2) 0 (2 * 86400)
    rfl rfl (by norm_num)

/-- A string with a long suffix cannot be the five-character "Never". -/
theorem append_long_suffix_ne_never (s suf : String) (hlen : 6 ≤ suf.length) :
    s ++ suf ≠ "Never" := by
  intro h
  have h2 := congrArg String.length h
  rw [String.length_append] at h2
  have h5 : ("Never" : String).length = 5 := rfl
  omega

/-- The modelled humanize rendering never yields the sentinel "Never". -/
theorem naturaltime_ne_never (d : Int) : naturaltime d ≠ "Never" := by
  unfold naturaltime
  by_cases h1 : d < 60
  · rw [if_pos h1]; decide
  · rw [if_neg h1]
    by_cases h2 : d < 3600
    · rw [if_pos h2]
      exact append_long_suffix_ne_never _ _ (by decide)
    · rw [if_neg h2]
      by_cases h3 : d < 86400
      · rw [if_pos h3]
        exact append_long_suffix_ne_never _ _ (by decide)
      · rw [if_neg h3]
        exact append_long_suffix_ne_never _ _ (by decide)

/-- C9 counterexample: when the commit-list request itself fails (the
service answers the commits endpoint with an error status — e.g. 409 for
a repository with no commits at all), `raise_for_status` at line 162
throws, the `except` of line 206 returns `None`, and no record is
produced for the repository — refuting "the repository's record is still
produced" for every way of having no retrievable commit. -/
theorem no_commit_record_counterexample :
    get_repo_stats (Except.ok (some rj9)) (Except.error ()) (Except.ok [])
      (Except.ok []) 0 = none := rfl

/-- C9 (amended): when the commit-list request succeeds but returns no
commit — or a commit whose date fields are missing — the repository's
record is still produced and its `last_commit` field is the string
"Never"; when a commit with a parseable date is returned, the field is
the human-readable relative duration rendered from it, never "Never".
When the commit-list request itself fails, the whole record fetch fails
and the repository is dropped (see the counterexample). -/
theorem last_commit_never_or_naturaltime (rj : RepoJson)
    (issuesRes : Except Unit (List IssueItem))
    (pullsRes : Except Unit (List PRItem)) (now created : Int)
    (hcreated : repoCreatedAt rj = some created) :
    ((get_repo_stats (Except.ok (some rj)) (Except.ok []) issuesRes pullsRes
        now).map (fun r => r.last_commit) = some "Never") ∧
    (∀ c rest, c.date = none →
      (get_repo_stats (Except.ok (some rj)) (Except.ok (c :: rest)) issuesRes
          pullsRes now).map (fun r => r.last_commit) = some "Never") ∧
    (∀ c rest raw t, c.date = some ⟨raw, some t⟩ →
      (get_repo_stats (Except.ok (some rj)) (Except.ok (c :: rest)) issuesRes
          pullsRes now).map (fun r => r.last_commit)
        = some (naturaltime (now - t)) ∧
      naturaltime (now - t) ≠ "Never") := by
  refine ⟨?_, ?_, ?_⟩
  · simp only [get_repo_stats, commitDateStep, List.head?, hcreated,
      Option.map_some']
  · intro c rest hdate
    simp only [get_repo_stats, commitDateStep, List.head?, hdate, hcreated,
      Option.map_some']
  · intro c rest raw t hdate
    refine ⟨?_, naturaltime_ne_never _⟩
    simp only [get_repo_stats, commitDateStep, List.head?, hdate, hcreated,
      Option.map_some']

/-- Witness for C9: an empty commit list yields a record with "Never";
a commit dated at the epoch yields the rendered relative duration. -/
theorem last_commit_never_or_naturaltime_witness :
    ((get_repo_stats (Except.ok (some rj9)) (Except.ok []) (Except.ok [])
        (Except.ok []) 0).map (fun r => r.last_commit) = some "Never") ∧
    ((get_repo_stats (Except.ok (some rj9)) (Except.ok [commit9])
        (Except.ok []) (Except.ok []) 200000).map (fun r => r.last_commit)
      = some (naturaltime (200000 - 0)) ∧
      naturaltime (200000 - 0) ≠ "Never") :=
  ⟨(last_commit_never_or_naturaltime rj9 (Except.ok []) (Except.ok []) 0
      946684800 rfl).1,
    (last_commit_never_or_naturaltime rj9 (Except.ok []) (Except.ok [])
      200000 946684800 rfl).2.2 commit9 [] "2024-01-01T00:00:00Z" 0 rfl⟩

/-- Truncation to 40 characters cannot turn a different name into
".github" (which has 7 characters). -/
theorem take40_ne_github (s : String) (h : s ≠ ".github") :
    String.mk (s.data.take 40) ≠ ".github" := by
  intro hc
  apply h
  have hdata : s.data.take 40 = (".github" : String).data :=
    congrArg String.data hc
  have hlen7 : ((".github" : String).data).length = 7 := rfl
  have hle : s.data.length ≤ 40 := by
    by_contra hgt
    push_neg at hgt
    have h40 : (s.data.take 40).length = 40 := by
      rw [List.length_take]
      omega
    rw [hdata] at h40
    omega
  have hall : s.data.take 40 = s.data := List.take_of_length_le hle
  rw [hall] at hdata
  exact congrArg String.mk hdata

/-- C10: the dispatcher collects a record named ".github" like any other,
but both the console report and the exported file silently exclude it:
no table row carries that name, prepending such a record changes neither
the table, nor the summary totals, nor the export rows; every other
record is preserved (it appears in the export rows and in the sorted
table base). -/
theorem github_repo_filtered_from_display_and_export
    (stats : List RepoStatsRecord) (r : RepoStatsRecord) :
    main_collect_stats 5 (stats.map some) = stats ∧
    (∀ row ∈ display_table_rows stats, row.name ≠ ".github") ∧
    (r.name = ".github" →
      display_table_rows (r :: stats) = display_table_rows stats ∧
      display_summary (r :: stats) = display_summary stats ∧
      export_rows (r :: stats) = export_rows stats) ∧
    (r.name ≠ ".github" →
      export_rows (r :: stats) = r :: export_rows stats ∧
      r ∈ sort_by_stars (github_filter (r :: stats))) := by
  refine ⟨?_, ?_, ?_, ?_⟩
  · rw [main_collect_stats_eq_filterMap]
    simp
  · intro row hrow
    simp only [display_table_rows, List.mem_map] at hrow
    obtain ⟨x, hxmem, hxrow⟩ := hrow
    have hxf : x ∈ github_filter stats :=
      (List.mergeSort_perm (github_filter stats) _).subset hxmem
    have hxname : x.name ≠ ".github" := by
      have := (List.mem_filter.mp hxf).2
      simpa using this
    rw [← hxrow]
    exact take40_ne_github x.name hxname
  · intro hname
    have hfilter : github_filter (r :: stats) = github_filter stats := by
      simp [github_filter, List.filter_cons, hname]
    refine ⟨?_, ?_, ?_⟩
    · simp [display_table_rows, sort_by_stars, hfilter]
    · simp [display_summary, hfilter]
    · simp [export_rows, List.filter_cons, hname]
  · intro hname
    have hcons : github_filter (r :: stats) = r :: github_filter stats := by
      simp [github_filter, List.filter_cons, hname]
    refine ⟨?_, ?_⟩
    · simp [export_rows, List.filter_cons, hname]
    · have : r ∈ github_filter (r :: stats) := by
        rw [hcons]; exact List.mem_cons_self r _
      exact (List.mergeSort_perm (github_filter (r :: stats)) _).mem_iff.mpr
        this

/-- Witness for C10: a ".github" record vanishes from report, totals and
export while an ordinary record is kept. -/
theorem github_repo_filtered_from_display_and_export_witness :
    display_table_rows (sampleRecord ".github" 5 :: [sampleRecord "a" 2])
      = display_table_rows [sampleRecord "a" 2] ∧
    display_summary (sampleRecord ".github" 5 :: [sampleRecord "a" 2])
      = display_summary [sampleRecord "a" 2] ∧
    export_rows (sampleRecord ".github" 5 :: [sampleRecord "a" 2])
      = export_rows [sampleRecord "a" 2] ∧
    export_rows (sampleRecord "b" 1 :: [sampleRecord "a" 2])
      = sampleRecord "b" 1 :: export_rows [sampleRecord "a" 2] := by
  have h1 := (github_repo_filtered_from_display_and_export
    [sampleRecord "a" 2] (sampleRecord ".github" 5)).2.2.1 rfl
  have h2 := (github_repo_filtered_from_display_and_export
    [sampleRecord "a" 2] (sampleRecord "b" 1)).2.2.2 (by decide)
  exact ⟨h1.1, h1.2.1, h1.2.2, h2.1⟩

/-- C8 counterexample: in the issues mode (`--issues --repo ...`), an
owner argument containing "/" is not a usage error at all: line 213
splits it into an (owner, repo) pair and the run proceeds, here fetching
and returning one processed issue of the repository ("a", "b") — the run
neither reports a usage error nor exits non-zero, contradicting "it is
treated as fatal, never as a repository to process" for every owner
argument containing a separator. -/
theorem slash_owner_processed_in_issues_mode_counterexample :
    get_repository_issues "a/b" "c" apiAB 3
      = some (IssuesResult.ok [processedA]) ∧
    some (IssuesResult.ok [processedA]) ≠ some IssuesResult.failed ∧
    some (IssuesResult.ok [processedA]) ≠ some IssuesResult.crash := by
  refine ⟨?_, by decide, by decide⟩
  decide
